import Mathlib

/-!
Verification of the natural-language specification of the
`sqlalchemyobjects` repository against its source.

This file gives a shallow embedding of the repository's code:

* `database/databasefile.py` — the `DatabaseFile` handle: path, the
  synchronous and asynchronous engines, the two session factories, and the
  lifecycle operations (`construct`, `create_file`, `open`, `close`,
  `close_async`, `create_engine`, `build_session_maker`,
  `build_async_session_maker`, `create_session`, `create_async_session`,
  `__getstate__`, `__setstate__`).
* `tables/base/baseupdatetable.py` — `BaseUpdateTable`: the watermark
  queries `get_from_update` / `get_last_update_id` and their async
  variants, and the row `update` method.
* `tables/base/basesingletontable.py` — `BaseSingletonTable`:
  `create_entry` (get-or-insert) and `set_entry`.
* `tables/base/basemetainformationtable.py` — `BaseMetaInformationTable`:
  `set_information`, a delegation to `set_entry`.

The file `tables/base/basetable.py` (`BaseTable`) is absent from the
sources; the small pieces of it that the embedded methods call
(`insert`, `update`, `as_entry`) are modelled from the specification and
are marked `Modelled from the spec:` in their doc comments.

Python objects are embedded as immutable records with explicit state
passing; a method that mutates `self` becomes a function returning the new
state.  A Python call that raises before mutating returns the unchanged
state (or an `Except` error where the claim is about the error).  External
library calls (the SQL engine constructors, `metadata.create_all`, engine
`dispose`) do not change the handle's attributes and are embedded as
no-ops on the handle state.
-/

deriving instance DecidableEq for Except

/-! ## Embedding of `DatabaseFile` (databasefile.py) -/

/-- A SQLAlchemy engine, as far as the handle's state can observe it: the
URL it was created from and the pass-through keyword options. -/
structure Engine where
  url : String
  opts : List (String × String)
deriving DecidableEq, Repr

/-- A session factory (`sessionmaker(engine, **kwargs)` /
`async_sessionmaker(engine, **kwargs)`): the bound engine (Python allows
binding `None`) and the stored keyword options. -/
structure SessionFactory where
  bind : Option Engine
  opts : List (String × String)
deriving DecidableEq, Repr

/-- A session: its bound engine, and the positional and keyword arguments
it was constructed with. -/
structure Session where
  bind : Option Engine
  args : List String
  kwargs : List (String × String)
deriving DecidableEq, Repr

/-- Calling a session factory produces a session bound to the factory's
engine with the factory's stored options. -/
def SessionFactory.call (f : SessionFactory) : Session :=
  { bind := f.bind, args := [], kwargs := f.opts }

/-- The mutable attributes of a `DatabaseFile` handle:
`_path`, `_engine`, `_async_engine`, `_session_maker`,
`_async_session_maker` (databasefile.py lines 58–67). -/
structure DatabaseFile where
  path : Option String
  engine : Option Engine
  async_engine : Option Engine
  session_maker : Option SessionFactory
  async_session_maker : Option SessionFactory
deriving DecidableEq, Repr

/-- Python exceptions that the embedded session-creation paths can raise. -/
inductive PyErr where
  /-- `raise IOError(msg)`. -/
  | ioErr (msg : String)
  /-- `TypeError`, e.g. calling `None` as a function. -/
  | typeErr
deriving DecidableEq, Repr

namespace DatabaseFile

/-- `is_open` (lines 94–101): `self._engine is not None and
self._async_engine is not None`. -/
def is_open (db : DatabaseFile) : Bool :=
  db.engine.isSome && db.async_engine.isSome

/-- `create_engine` (lines 291–298): builds the synchronous engine from
`f"sqlite:///{self._path.as_posix()}"` and the asynchronous engine from
`f"sqlite+aiosqlite:///{self._path.as_posix()}"`, both with the same
pass-through options.  When `_path` is `None`, `as_posix` raises an
`AttributeError` before either engine attribute is assigned, so the state
is unchanged. -/
def create_engine (db : DatabaseFile) (kwargs : List (String × String)) : DatabaseFile :=
  match db.path with
  | none => db
  | some p =>
      { db with
        engine := some { url := "sqlite:///" ++ p, opts := kwargs }
        async_engine := some { url := "sqlite+aiosqlite:///" ++ p, opts := kwargs } }

/-- `build_session_maker` (lines 301–311): `self._session_maker =
sessionmaker(self._engine, **kwargs)`. -/
def build_session_maker (db : DatabaseFile) (kwargs : List (String × String)) : DatabaseFile :=
  { db with session_maker := some { bind := db.engine, opts := kwargs } }

/-- `build_async_session_maker` (lines 313–323): `self._async_session_maker
= async_sessionmaker(self._async_engine, **kwargs)`. -/
def build_async_session_maker (db : DatabaseFile) (kwargs : List (String × String)) : DatabaseFile :=
  { db with async_session_maker := some { bind := db.async_engine, opts := kwargs } }

/-- `open` (lines 245–257): `create_engine(**kwargs)`, then
`build_session_maker()`, then `build_async_session_maker()`.  When `_path`
is `None`, `create_engine` raises before any assignment and the two build
calls never run, so the state is unchanged. -/
def open_file (db : DatabaseFile) (kwargs : List (String × String)) : DatabaseFile :=
  match db.path with
  | none => db
  | some _ =>
      build_async_session_maker (build_session_maker (create_engine db kwargs) []) []

/-- `create_file` (lines 214–227): sets `_path` when a path argument is
given; calls `create_engine(**kwargs)` when `_engine is None` or a path
argument was given; finally runs `schema.metadata.create_all(self._engine)`,
which does not change the handle's attributes.  When the effective path is
`None`, `create_engine` raises before mutating. -/
def create_file (db : DatabaseFile) (parg : Option String)
    (kwargs : List (String × String)) : DatabaseFile :=
  let db := match parg with
    | some p => { db with path := some p }
    | none => db
  if db.engine.isNone || parg.isSome then
    match db.path with
    | none => db
    | some _ => create_engine db kwargs
  else
    db

/-- `close` (lines 259–273): disposes and nulls `_engine` when present,
nulls `_session_maker`, disposes and nulls `_async_engine` when present,
nulls `_async_session_maker`; returns `self._engine is None`. -/
def close (db : DatabaseFile) : DatabaseFile × Bool :=
  let db := if db.engine.isSome then { db with engine := none } else db
  let db := { db with session_maker := none }
  let db := if db.async_engine.isSome then { db with async_engine := none } else db
  let db := { db with async_session_maker := none }
  (db, db.engine.isNone)

/-- `close_async` (lines 275–288): disposes and nulls `_engine` when
present, disposes and nulls `_async_engine` when present, nulls
`_async_session_maker`; returns `self._engine is None`.  Unlike `close`,
the source contains no `self._session_maker = None` statement. -/
def close_async (db : DatabaseFile) : DatabaseFile × Bool :=
  let db := if db.engine.isSome then { db with engine := none } else db
  let db := if db.async_engine.isSome then { db with async_engine := none } else db
  let db := { db with async_session_maker := none }
  (db, db.engine.isNone)

/-- `construct` (lines 168–211) reached from `__init__`: a fresh handle has
every attribute at its class default (`None`); the path is set when given;
`create=True` runs `create_file()` then `close()`; `open_=True` runs
`open(**kwargs)`. -/
def construct (path : Option String) (open_ : Bool) (create : Bool)
    (kwargs : List (String × String)) : DatabaseFile :=
  let db : DatabaseFile :=
    { path := none, engine := none, async_engine := none,
      session_maker := none, async_session_maker := none }
  let db := match path with
    | some p => { db with path := some p }
    | none => db
  let db := if create then (close (create_file db none [])).1 else db
  let db := if open_ then open_file db kwargs else db
  db

/-- `create_session` (lines 325–340): raises `IOError("File not open")`
when `not self.is_open`; otherwise returns
`Session(self._engine, *args, **kwargs) if args or kwargs else
self._session_maker()`.  When `_session_maker` is `None`, the final call
`None()` raises a `TypeError`. -/
def create_session (db : DatabaseFile) (args : List String)
    (kwargs : List (String × String)) : Except PyErr Session :=
  if db.is_open = false then
    .error (.ioErr "File not open")
  else if args.isEmpty && kwargs.isEmpty then
    match db.session_maker with
    | some f => .ok f.call
    | none => .error .typeErr
  else
    .ok { bind := db.engine, args := args, kwargs := kwargs }

/-- `create_async_session` (lines 342–357): raises
`IOError("File not open")` when `not self.is_open`; otherwise returns
`AsyncSession(self._async_engine, *args, **kwargs) if args or kwargs else
self._async_session_maker()`.  When `_async_session_maker` is `None`, the
final call `None()` raises a `TypeError`. -/
def create_async_session (db : DatabaseFile) (args : List String)
    (kwargs : List (String × String)) : Except PyErr Session :=
  if db.is_open = false then
    .error (.ioErr "File not open")
  else if args.isEmpty && kwargs.isEmpty then
    match db.async_session_maker with
    | some f => .ok f.call
    | none => .error .typeErr
  else
    .ok { bind := db.async_engine, args := args, kwargs := kwargs }

end DatabaseFile

/-! ## Pickling (`__getstate__` / `__setstate__`, databasefile.py 142–164)

The pickled state is a Python dictionary from attribute names to values;
it is embedded as an association list over an inductive value type.  The
base class `__getstate__` (from the external `baseobjects` package) is
modelled as the instance's attribute mapping. -/

/-- A value stored in the pickled attribute dictionary. -/
inductive DVal where
  | vPath (p : Option String)
  | vEngine (e : Option Engine)
  | vFactory (f : Option SessionFactory)
  | vBool (b : Bool)
deriving DecidableEq, Repr

namespace DatabaseFile

/-- The four attribute names `__getstate__` deletes from the state. -/
def liveNames : List String :=
  ["_engine", "_async_engine", "_session_maker", "_async_session_maker"]

/-- `__getstate__` (lines 142–153): takes the attribute dictionary, adds
`state["is_open"] = self.is_open`, and deletes `_engine`, `_async_engine`,
`_session_maker` and `_async_session_maker` when present. -/
def getstate (db : DatabaseFile) : List (String × DVal) :=
  let state : List (String × DVal) :=
    [("_path", .vPath db.path),
     ("_engine", .vEngine db.engine),
     ("_async_engine", .vEngine db.async_engine),
     ("_session_maker", .vFactory db.session_maker),
     ("_async_session_maker", .vFactory db.async_session_maker)]
  let state := state ++ [("is_open", .vBool db.is_open)]
  state.filter (fun kv => !(liveNames.contains kv.1))

/-- `__setstate__` (lines 155–164): pops `is_open` from the state,
restores the remaining attributes (a name absent from the state falls back
to the class default `None`), and calls `self.open()` when the popped flag
was true. -/
def setstate (state : List (String × DVal)) : DatabaseFile :=
  let was_open := match state.lookup "is_open" with
    | some (.vBool b) => b
    | _ => false
  let db : DatabaseFile :=
    { path := match state.lookup "_path" with
        | some (.vPath p) => p
        | _ => none
      engine := match state.lookup "_engine" with
        | some (.vEngine e) => e
        | _ => none
      async_engine := match state.lookup "_async_engine" with
        | some (.vEngine e) => e
        | _ => none
      session_maker := match state.lookup "_session_maker" with
        | some (.vFactory f) => f
        | _ => none
      async_session_maker := match state.lookup "_async_session_maker" with
        | some (.vFactory f) => f
        | _ => none }
  if was_open then db.open_file [] else db

end DatabaseFile

/-! ## Sequences of `DatabaseFile` operations

Used for the engine-pairing invariant: an operation from the claim's list
applied to a handle state. -/

/-- One lifecycle operation on a `DatabaseFile` handle. -/
inductive FileOp where
  | createFileOp (parg : Option String) (kwargs : List (String × String))
  | openOp (kwargs : List (String × String))
  | closeOp
  | closeAsyncOp
  | createEngineOp (kwargs : List (String × String))
deriving DecidableEq, Repr

/-- Apply one lifecycle operation to a handle state. -/
def applyOp (db : DatabaseFile) : FileOp → DatabaseFile
  | .createFileOp parg kwargs => db.create_file parg kwargs
  | .openOp kwargs => db.open_file kwargs
  | .closeOp => (db.close).1
  | .closeAsyncOp => (db.close_async).1
  | .createEngineOp kwargs => db.create_engine kwargs

/-- Run a sequence of lifecycle operations from a starting state. -/
def runOps (db : DatabaseFile) (ops : List FileOp) : DatabaseFile :=
  ops.foldl applyOp db

/-- The two engine references are null together. -/
def enginesPaired (db : DatabaseFile) : Prop :=
  db.engine = none ↔ db.async_engine = none

instance (db : DatabaseFile) : Decidable (enginesPaired db) := by
  unfold enginesPaired; infer_instance

/-! ## Embedding of the table classes (tables/base/)

A Python field dictionary is embedded as a function from column names to
`Option Int`: `none` is an absent key, and field values are integers (the
data model's column payloads are integer-valued; `update_id` is a
`BigInteger` column with default `0`). -/

/-- A Python dictionary of row fields. -/
def Dict : Type := String → Option Int

/-- The empty dictionary `{}`. -/
def emptyDict : Dict := fun _ => none

/-- Python dictionary merge `d | kw`: the right operand wins on common
keys. -/
def dmerge (d kw : Dict) : Dict :=
  fun k => match kw k with
    | some v => some v
    | none => d k

/-! ### `BaseUpdateTable` (baseupdatetable.py) -/

/-- A row of an update-tracked table: the inherited primary-key column
`id` and the `update_id` watermark column
(`mapped_column(BigInteger, default=0)`, line 47). -/
structure URow where
  id : Int
  update_id : Int
deriving DecidableEq, Repr

namespace URow

/-- `update` (baseupdatetable.py lines 131–140):
`dict_ = ({} if dict_ is None else dict_) | kwargs`; then
`if (update_id := dict_.get("update_id", None)) is not None:
self.update_id = update_id`. -/
def update (r : URow) (dict_ : Option Dict) (kwargs : Dict) : URow :=
  let merged := dmerge (dict_.getD emptyDict) kwargs
  match merged "update_id" with
  | some v => { r with update_id := v }
  | none => r

/-- Modelled from the spec: `BaseTable.as_entry` (basetable.py is absent
from src/); §4.2 — the external-facing projection of the row, here its
identifier. -/
def base_as_entry (r : URow) : Dict :=
  fun k => if k = "id" then some r.id else none

/-- `as_entry` (baseupdatetable.py lines 152–160): the base entry with
`update_id` added. -/
def as_entry (r : URow) : Dict :=
  fun k => if k = "update_id" then some r.update_id else r.base_as_entry k

end URow

namespace BaseUpdateTable

/-- `get_last_update_id` (lines 50–60):
`select(func.max(cls.update_id))` — the SQL `MAX` aggregate over the
`update_id` column, `NULL` (here `none`) when the table is empty;
`one_or_none()[0]` extracts that single aggregate value. -/
def get_last_update_id (state : List URow) : Option Int :=
  match state.map (fun r => r.update_id) with
  | [] => none
  | x :: xs => some (xs.foldl max x)

/-- `get_last_update_id_async` (lines 62–72): the same aggregate query
executed against an asynchronous session. -/
def get_last_update_id_async (state : List URow) : Option Int :=
  match state.map (fun r => r.update_id) with
  | [] => none
  | x :: xs => some (xs.foldl max x)

/-- `get_from_update` (lines 74–100): `select(cls)` plus
`where(cls.update_id >= update_id)` when inclusive, else
`where(cls.update_id > update_id)`; returns the entry projections when
`as_entries`, else the raw result rows. -/
def get_from_update (state : List URow) (update_id : Int)
    (inclusive : Bool) (as_entries : Bool) : List URow ⊕ List Dict :=
  let rows :=
    if inclusive then
      state.filter (fun r => decide (r.update_id ≥ update_id))
    else
      state.filter (fun r => decide (r.update_id > update_id))
  if as_entries then .inr (rows.map URow.as_entry) else .inl rows

/-- `get_from_update_async` (lines 102–128): the same statement, built and
filtered identically, executed against an asynchronous session. -/
def get_from_update_async (state : List URow) (update_id : Int)
    (inclusive : Bool) (as_entries : Bool) : List URow ⊕ List Dict :=
  let rows :=
    if inclusive then
      state.filter (fun r => decide (r.update_id ≥ update_id))
    else
      state.filter (fun r => decide (r.update_id > update_id))
  if as_entries then .inr (rows.map URow.as_entry) else .inl rows

end BaseUpdateTable

/-! ### `BaseSingletonTable` (basesingletontable.py) and
`BaseMetaInformationTable` (basemetainformationtable.py)

A singleton-table row is its field dictionary; the table state is the list
of rows actually in the table, on which `.scalar()` yields the first row
or `None`. -/

/-- A row of a singleton table: its column fields. -/
structure SRow where
  fields : Dict

namespace SRow

/-- Modelled from the spec: `BaseTable.update` (basetable.py is absent
from src/); §4.2 — merges the given mapping and the keyword overrides with
overrides winning and applies every merged field to the row's mutable
columns. -/
def update (r : SRow) (entry : Option Dict) (kwargs : Dict) : SRow :=
  let merged := dmerge (entry.getD emptyDict) kwargs
  ⟨fun k => match merged k with
    | some v => some v
    | none => r.fields k⟩

/-- Modelled from the spec: `BaseTable.insert` (basetable.py is absent
from src/); §4.3 — "merges `entry` and `kwargs` as the target field set;
if absent, inserts a new row with those fields". -/
def insert_row (entry : Option Dict) (kwargs : Dict) : SRow :=
  ⟨dmerge (entry.getD emptyDict) kwargs⟩

end SRow

namespace BaseSingletonTable

/-- `create_entry` (basesingletontable.py lines 45–75): selects the
(first) existing row; inserts a new row from `entry` and `kwargs` when
none exists, otherwise calls `result.update(entry, **kwargs)` on it.  The
`begin=True` branch performs the same reads and writes inside one
transaction, which coincides with the plain branch in this sequential
embedding. -/
def create_entry (state : List SRow) (entry : Option Dict) (begin_ : Bool)
    (kwargs : Dict) : List SRow :=
  match state with
  | [] => state ++ [SRow.insert_row entry kwargs]
  | r :: rest => r.update entry kwargs :: rest

/-- `set_entry` (basesingletontable.py lines 146–168):
`session.execute(select(cls)).scalar().update(entry, **kwargs)` — when the
table has no row, `.scalar()` is `None` and the `.update` attribute access
raises, embedded as `none`; otherwise the first row is updated in place. -/
def set_entry (state : List SRow) (entry : Option Dict) (begin_ : Bool)
    (kwargs : Dict) : Option (List SRow) :=
  match state with
  | [] => none
  | r :: rest => some (r.update entry kwargs :: rest)

end BaseSingletonTable

namespace BaseMetaInformationTable

/-- `set_information` (basemetainformationtable.py lines 118–136):
`cls.set_entry(session=session, entry=entry, begin=begin, **kwargs)`. -/
def set_information (state : List SRow) (entry : Option Dict) (begin_ : Bool)
    (kwargs : Dict) : Option (List SRow) :=
  BaseSingletonTable.set_entry state entry begin_ kwargs

end BaseMetaInformationTable

/-! ## Helper lemmas -/

/-- The seed of a running maximum is bounded by the result. -/
lemma seed_le_foldl_max : ∀ (xs : List Int) (x : Int), x ≤ xs.foldl max x := by
  intro xs
  induction xs with
  | nil => intro x; exact le_refl x
  | cons y ys ih =>
      intro x
      calc x ≤ max x y := le_max_left x y
        _ ≤ ys.foldl max (max x y) := ih (max x y)

/-- The running maximum is the seed or one of the list elements. -/
lemma foldl_max_mem : ∀ (xs : List Int) (x : Int),
    xs.foldl max x = x ∨ xs.foldl max x ∈ xs := by
  intro xs
  induction xs with
  | nil => intro x; exact Or.inl rfl
  | cons y ys ih =>
      intro x
      rcases ih (max x y) with h | h
      · rcases max_choice x y with hm | hm
        · exact Or.inl (by rw [List.foldl_cons, h, hm])
        · exact Or.inr (by rw [List.foldl_cons, h, hm]; exact List.mem_cons_self y ys)
      · exact Or.inr (List.mem_cons_of_mem y h)

/-- Every element (and the seed) is bounded by the running maximum. -/
lemma le_foldl_max : ∀ (xs : List Int) (x y : Int),
    y = x ∨ y ∈ xs → y ≤ xs.foldl max x := by
  intro xs
  induction xs with
  | nil =>
      intro x y h
      rcases h with h | h
      · exact h ▸ le_refl x
      · exact absurd h (List.not_mem_nil y)
  | cons z zs ih =>
      intro x y h
      rw [List.foldl_cons]
      rcases h with h | h
      · subst h
        calc y ≤ max y z := le_max_left y z
          _ ≤ zs.foldl max (max y z) := seed_le_foldl_max zs (max y z)
      · rcases List.mem_cons.mp h with h | h
        · subst h
          calc y ≤ max x y := le_max_right x y
            _ ≤ zs.foldl max (max x y) := seed_le_foldl_max zs (max x y)
        · exact ih (max x z) y (Or.inr h)

/-! ## Claim C3 -/

/-- C3: for every update-tracked table state and every threshold `T`,
`get_from_update(T, inclusive=True)` returns exactly the rows with
`update_id >= T`, `get_from_update(T, inclusive=False)` returns exactly
the rows with `update_id > T`, and `get_last_update_id` returns the
maximum `update_id` over all rows, or none when the table is empty. -/
theorem claim3_watermark_queries :
    ∀ (state : List URow) (T : Int),
      (∃ rows, BaseUpdateTable.get_from_update state T true false = Sum.inl rows ∧
        ∀ r : URow, r ∈ rows ↔ r ∈ state ∧ r.update_id ≥ T) ∧
      (∃ rows, BaseUpdateTable.get_from_update state T false false = Sum.inl rows ∧
        ∀ r : URow, r ∈ rows ↔ r ∈ state ∧ r.update_id > T) ∧
      (BaseUpdateTable.get_last_update_id state = none ↔ state = []) ∧
      (∀ m, BaseUpdateTable.get_last_update_id state = some m →
        (∃ r ∈ state, r.update_id = m) ∧ ∀ r ∈ state, r.update_id ≤ m) := by
  intro state T
  refine ⟨⟨state.filter (fun r => decide (r.update_id ≥ T)), rfl, ?_⟩,
          ⟨state.filter (fun r => decide (r.update_id > T)), rfl, ?_⟩, ?_, ?_⟩
  · intro r; simp [List.mem_filter]
  · intro r; simp [List.mem_filter]
  · unfold BaseUpdateTable.get_last_update_id
    cases state with
    | nil => simp
    | cons a l => simp
  · intro m hm
    unfold BaseUpdateTable.get_last_update_id at hm
    cases state with
    | nil => simp at hm
    | cons a l =>
        simp only [List.map_cons] at hm
        injection hm with hm
        constructor
        · rcases foldl_max_mem (l.map (fun r => r.update_id)) a.update_id with h | h
          · exact ⟨a, List.mem_cons_self a l, by rw [← hm, h]⟩
          · rcases List.mem_map.mp h with ⟨r, hr, hrv⟩
            exact ⟨r, List.mem_cons_of_mem a hr, hrv.trans hm⟩
        · intro r hr
          rcases List.mem_cons.mp hr with h | h
          · subst h; rw [← hm]
            exact le_foldl_max _ _ _ (Or.inl rfl)
          · rw [← hm]
            exact le_foldl_max _ _ _ (Or.inr (List.mem_map_of_mem _ h))

/-- Witness for C3 at the spec's own scenario: rows with `update_id`
1, 2, 3 and threshold 2. -/
theorem claim3_watermark_queries_witness :
    (∃ rows,
      BaseUpdateTable.get_from_update [⟨1, 1⟩, ⟨2, 2⟩, ⟨3, 3⟩] 2 true false = Sum.inl rows ∧
      ∀ r : URow, r ∈ rows ↔ r ∈ [⟨1, 1⟩, ⟨2, 2⟩, (⟨3, 3⟩ : URow)] ∧ r.update_id ≥ 2) ∧
    (∃ rows,
      BaseUpdateTable.get_from_update [⟨1, 1⟩, ⟨2, 2⟩, ⟨3, 3⟩] 2 false false = Sum.inl rows ∧
      ∀ r : URow, r ∈ rows ↔ r ∈ [⟨1, 1⟩, ⟨2, 2⟩, (⟨3, 3⟩ : URow)] ∧ r.update_id > 2) ∧
    (BaseUpdateTable.get_last_update_id [⟨1, 1⟩, ⟨2, 2⟩, ⟨3, 3⟩] = none ↔
      ([⟨1, 1⟩, ⟨2, 2⟩, ⟨3, 3⟩] : List URow) = []) ∧
    (∀ m, BaseUpdateTable.get_last_update_id [⟨1, 1⟩, ⟨2, 2⟩, ⟨3, 3⟩] = some m →
      (∃ r ∈ ([⟨1, 1⟩, ⟨2, 2⟩, ⟨3, 3⟩] : List URow), r.update_id = m) ∧
      ∀ r ∈ ([⟨1, 1⟩, ⟨2, 2⟩, ⟨3, 3⟩] : List URow), r.update_id ≤ m) :=
  claim3_watermark_queries [⟨1, 1⟩, ⟨2, 2⟩, ⟨3, 3⟩] 2

/-! ## Claim C9 -/

/-- C9: for every update-tracked table state, threshold, inclusivity flag
and entries flag, `get_from_update_async` selects exactly the same rows as
the synchronous `get_from_update`, and `get_last_update_id_async` returns
the same value as `get_last_update_id`. -/
theorem claim9_async_variants_agree :
    (∀ (state : List URow) (T : Int) (inclusive as_entries : Bool),
      BaseUpdateTable.get_from_update_async state T inclusive as_entries =
        BaseUpdateTable.get_from_update state T inclusive as_entries) ∧
    (∀ state : List URow,
      BaseUpdateTable.get_last_update_id_async state =
        BaseUpdateTable.get_last_update_id state) := by
  exact ⟨fun _ _ _ _ => rfl, fun _ => rfl⟩

/-- Witness for C9 at a concrete table state and threshold. -/
theorem claim9_async_variants_agree_witness :
    BaseUpdateTable.get_from_update_async [⟨1, 1⟩, ⟨2, 2⟩, ⟨3, 3⟩] 2 true false =
      BaseUpdateTable.get_from_update [⟨1, 1⟩, ⟨2, 2⟩, ⟨3, 3⟩] 2 true false ∧
    BaseUpdateTable.get_last_update_id_async [⟨1, 1⟩, ⟨2, 2⟩, ⟨3, 3⟩] =
      BaseUpdateTable.get_last_update_id [⟨1, 1⟩, ⟨2, 2⟩, ⟨3, 3⟩] :=
  ⟨claim9_async_variants_agree.1 [⟨1, 1⟩, ⟨2, 2⟩, ⟨3, 3⟩] 2 true false,
   claim9_async_variants_agree.2 [⟨1, 1⟩, ⟨2, 2⟩, ⟨3, 3⟩]⟩

/-! ## Claim C5 -/

/-- C5: for every update-tracked row and every pair of a field mapping and
keyword overrides, `update` merges the mapping and the overrides with the
overrides winning, applies `update_id` to the row's `update_id` column
when it is present in the merge, leaves the row unchanged when it is
absent, never touches the row's other column (`id`), and a null mapping is
treated as the empty one. -/
theorem claim5_update_merge_semantics :
    ∀ (r : URow) (d kw : Dict),
      (∀ v, dmerge d kw "update_id" = some v →
        (URow.update r (some d) kw).update_id = v) ∧
      (dmerge d kw "update_id" = none → URow.update r (some d) kw = r) ∧
      (URow.update r (some d) kw).id = r.id ∧
      (∀ k v, kw k = some v → dmerge d kw k = some v) ∧
      (∀ k, kw k = none → dmerge d kw k = d k) ∧
      URow.update r none kw = URow.update r (some emptyDict) kw := by
  intro r d kw
  refine ⟨?_, ?_, ?_, ?_, ?_, rfl⟩
  · intro v hv
    simp [URow.update, hv]
  · intro hv
    simp [URow.update, hv]
  · unfold URow.update
    cases h : dmerge d kw "update_id" with
    | none => simp [h]
    | some v => simp [h]
  · intro k v hv
    simp [dmerge, hv]
  · intro k hv
    simp [dmerge, hv]

/-- Witness for C5: overrides win — a mapping carrying `update_id = 7`
overridden by keyword `update_id = 9` sets the row's watermark to 9. -/
theorem claim5_update_merge_semantics_witness :
    (URow.update ⟨1, 5⟩
      (some (fun k => if k = "update_id" then some 7 else none))
      (fun k => if k = "update_id" then some 9 else none)).update_id = 9 :=
  (claim5_update_merge_semantics ⟨1, 5⟩
      (fun k => if k = "update_id" then some 7 else none)
      (fun k => if k = "update_id" then some 9 else none)).1 9 (by decide)

/-! ## Claim C4 -/

/-- C4: for every singleton-table state holding at most one row and every
field set (entry merged with keyword overrides), calling `create_entry`
twice with the same fields leaves exactly one row, and that row carries
the fields of the last call. -/
theorem claim4_create_entry_idempotent :
    ∀ (state : List SRow) (entry : Option Dict) (b1 b2 : Bool) (kwargs : Dict),
      state.length ≤ 1 →
      ∃ r, BaseSingletonTable.create_entry
             (BaseSingletonTable.create_entry state entry b1 kwargs) entry b2 kwargs = [r] ∧
           ∀ k v, dmerge (entry.getD emptyDict) kwargs k = some v → r.fields k = some v := by
  intro state entry b1 b2 kwargs hlen
  match state with
  | [] =>
      refine ⟨(SRow.insert_row entry kwargs).update entry kwargs, rfl, ?_⟩
      intro k v hkv
      simp [SRow.update, hkv]
  | [r0] =>
      refine ⟨(r0.update entry kwargs).update entry kwargs, rfl, ?_⟩
      intro k v hkv
      simp [SRow.update, hkv]
  | _ :: _ :: _ =>
      simp at hlen

/-- Witness for C4: two identical `create_entry` calls on the empty table
with field set `{value: 1}`. -/
theorem claim4_create_entry_idempotent_witness :
    ([] : List SRow).length ≤ 1 ∧
    ∃ r, BaseSingletonTable.create_entry
           (BaseSingletonTable.create_entry []
             (some (fun k => if k = "value" then some 1 else none)) false emptyDict)
           (some (fun k => if k = "value" then some 1 else none)) false emptyDict = [r] ∧
         ∀ k v,
           dmerge ((some (fun k => if k = "value" then some 1 else none)).getD emptyDict)
             emptyDict k = some v → r.fields k = some v :=
  ⟨by decide,
   claim4_create_entry_idempotent []
     (some (fun k => if k = "value" then some 1 else none)) false false emptyDict (by decide)⟩

/-! ## Claim C7 -/

/-- C7: for every singleton table whose state contains no row, `set_entry`
fails rather than inserting a row; for every state containing the row it
updates that row in place; and `set_information` delegates to
`set_entry`. -/
theorem claim7_set_entry_requires_row :
    ∀ (entry : Option Dict) (b : Bool) (kwargs : Dict),
      BaseSingletonTable.set_entry [] entry b kwargs = none ∧
      (∀ (r : SRow) (rest : List SRow),
        BaseSingletonTable.set_entry (r :: rest) entry b kwargs =
          some (r.update entry kwargs :: rest)) ∧
      (∀ state : List SRow,
        BaseMetaInformationTable.set_information state entry b kwargs =
          BaseSingletonTable.set_entry state entry b kwargs) :=
  fun _ _ _ => ⟨rfl, fun _ _ => rfl, fun _ => rfl⟩

/-- Witness for C7 at a concrete entry and keyword set. -/
theorem claim7_set_entry_requires_row_witness :
    BaseSingletonTable.set_entry []
      (some (fun k => if k = "value" then some 2 else none)) false emptyDict = none ∧
    (∀ (r : SRow) (rest : List SRow),
      BaseSingletonTable.set_entry (r :: rest)
        (some (fun k => if k = "value" then some 2 else none)) false emptyDict =
        some (r.update (some (fun k => if k = "value" then some 2 else none)) emptyDict :: rest)) ∧
    (∀ state : List SRow,
      BaseMetaInformationTable.set_information state
        (some (fun k => if k = "value" then some 2 else none)) false emptyDict =
        BaseSingletonTable.set_entry state
          (some (fun k => if k = "value" then some 2 else none)) false emptyDict) :=
  claim7_set_entry_requires_row
    (some (fun k => if k = "value" then some 2 else none)) false emptyDict

/-! ## Lifecycle claims: shared concrete handle states -/

/-- A handle opened from a fresh state with the path `test.db`. -/
def dbOpenEx : DatabaseFile :=
  DatabaseFile.open_file ⟨some "test.db", none, none, none, none⟩ []

/-- A fresh handle on which only `create_file` has run: the engines exist
but neither session factory has been built. -/
def dbCreatedEx : DatabaseFile :=
  DatabaseFile.create_file ⟨some "test.db", none, none, none, none⟩ none []

/-! ## Claim C2 -/

/-- C2 counterexample: on a fresh handle with a path, `create_file` alone
(no subsequent `open`, no subsequent `close`) creates both engines, so
`is_open` is true — not false as the claim states.  (The constructor's
`create=True` path stays closed only because it calls `close()` right
after `create_file()`.) -/
theorem claim2_counterexample :
    DatabaseFile.is_open dbCreatedEx = true := by decide

/-- C2 amended: after `create_file`, whenever the synchronous engine was
absent or a path argument was supplied (so that `create_engine` runs), and
a path is available, the handle IS open; `create_file` never leaves a
previously closed handle closed — the constructor's create path closes it
explicitly afterwards. -/
theorem claim2_amended_create_file_opens :
    ∀ (db : DatabaseFile) (parg : Option String) (kw : List (String × String)),
      (db.engine = none ∨ parg ≠ none) →
      (parg ≠ none ∨ db.path ≠ none) →
      DatabaseFile.is_open (db.create_file parg kw) = true := by
  intro db parg kw h1 h2
  cases parg with
  | some p =>
      simp [DatabaseFile.create_file, DatabaseFile.create_engine, DatabaseFile.is_open]
  | none =>
      rcases h1 with h1 | h1
      · cases hp : db.path with
        | none =>
            rcases h2 with h2 | h2
            · exact absurd rfl h2
            · exact absurd hp h2
        | some p =>
            simp [DatabaseFile.create_file, DatabaseFile.create_engine,
              DatabaseFile.is_open, h1, hp]
      · exact absurd rfl h1

/-- Witness for the amended C2: a fresh closed handle with path
`db.sqlite`, no path argument. -/
theorem claim2_amended_create_file_opens_witness :
    ((⟨some "db.sqlite", none, none, none, none⟩ : DatabaseFile).engine = none ∨
      (none : Option String) ≠ none) ∧
    ((none : Option String) ≠ none ∨
      (⟨some "db.sqlite", none, none, none, none⟩ : DatabaseFile).path ≠ none) ∧
    DatabaseFile.is_open
      (DatabaseFile.create_file ⟨some "db.sqlite", none, none, none, none⟩ none []) = true :=
  ⟨Or.inl rfl, Or.inr (by decide),
   claim2_amended_create_file_opens ⟨some "db.sqlite", none, none, none, none⟩ none []
     (Or.inl rfl) (Or.inr (by decide))⟩

/-! ## Claim C1 -/

/-- C1 counterexample: a handle on which only `create_file` has run is
open (`is_open` is true), yet `create_session()` with no arguments does
not return a session produced by the stored session factory — the factory
reference is `None` and the call `self._session_maker()` raises a
`TypeError` (and the async twin likewise). -/
theorem claim1_counterexample :
    DatabaseFile.is_open dbCreatedEx = true ∧
    DatabaseFile.create_session dbCreatedEx [] [] = .error PyErr.typeErr ∧
    DatabaseFile.create_async_session dbCreatedEx [] [] = .error PyErr.typeErr := by
  decide

/-- C1 amended: `create_session` and `create_async_session` raise an I/O
error exactly when the handle is not open; when open, a call with any
positional or keyword argument returns a one-off session constructed
directly against the corresponding engine with those overrides, and a call
with no arguments returns the session produced by the stored session
factory provided that factory has been built — when the factory reference
is null (as after `create_file` without `open`), the no-argument call
raises a type error instead. -/
theorem claim1_amended_session_creation :
    ∀ (db : DatabaseFile) (args : List String) (kwargs : List (String × String)),
      (db.create_session args kwargs = .error (.ioErr "File not open") ↔
        db.is_open = false) ∧
      (db.create_async_session args kwargs = .error (.ioErr "File not open") ↔
        db.is_open = false) ∧
      (db.is_open = true → args = [] → kwargs = [] →
        ∀ f, db.session_maker = some f →
          db.create_session args kwargs = .ok f.call) ∧
      (db.is_open = true → args = [] → kwargs = [] → db.session_maker = none →
        db.create_session args kwargs = .error .typeErr) ∧
      (db.is_open = true → (args ≠ [] ∨ kwargs ≠ []) →
        db.create_session args kwargs = .ok ⟨db.engine, args, kwargs⟩) ∧
      (db.is_open = true → args = [] → kwargs = [] →
        ∀ f, db.async_session_maker = some f →
          db.create_async_session args kwargs = .ok f.call) ∧
      (db.is_open = true → args = [] → kwargs = [] → db.async_session_maker = none →
        db.create_async_session args kwargs = .error .typeErr) ∧
      (db.is_open = true → (args ≠ [] ∨ kwargs ≠ []) →
        db.create_async_session args kwargs = .ok ⟨db.async_engine, args, kwargs⟩) := by
  intro db args kwargs
  cases hopen : db.is_open with
  | false =>
      refine ⟨?_, ?_, ?_, ?_, ?_, ?_, ?_, ?_⟩ <;>
        simp [DatabaseFile.create_session, DatabaseFile.create_async_session, hopen]
  | true =>
      refine ⟨?_, ?_, ?_, ?_, ?_, ?_, ?_, ?_⟩
      · constructor
        · intro h
          have hne : db.create_session args kwargs ≠
              Except.error (PyErr.ioErr "File not open") := by
            unfold DatabaseFile.create_session
            rw [if_neg (by simp [hopen])]
            split
            · split <;> simp
            · simp
          exact (hne h).elim
        · intro h
          simp at h
      · constructor
        · intro h
          have hne : db.create_async_session args kwargs ≠
              Except.error (PyErr.ioErr "File not open") := by
            unfold DatabaseFile.create_async_session
            rw [if_neg (by simp [hopen])]
            split
            · split <;> simp
            · simp
          exact (hne h).elim
        · intro h
          simp at h
      · intro _ ha hk f hf
        simp [DatabaseFile.create_session, hopen, ha, hk, hf]
      · intro _ ha hk hf
        simp [DatabaseFile.create_session, hopen, ha, hk, hf]
      · intro _ hne
        have h : ¬(args.isEmpty && kwargs.isEmpty) = true := by
          rcases hne with h | h <;> cases args <;> cases kwargs <;> simp_all
        simp [DatabaseFile.create_session, hopen, h]
      · intro _ ha hk f hf
        simp [DatabaseFile.create_async_session, hopen, ha, hk, hf]
      · intro _ ha hk hf
        simp [DatabaseFile.create_async_session, hopen, ha, hk, hf]
      · intro _ hne
        have h : ¬(args.isEmpty && kwargs.isEmpty) = true := by
          rcases hne with h | h <;> cases args <;> cases kwargs <;> simp_all
        simp [DatabaseFile.create_async_session, hopen, h]

/-- Witness for the amended C1: on an opened handle, a call with a
positional argument yields the one-off session against the sync engine,
and a no-argument call yields the stored factory's session. -/
theorem claim1_amended_session_creation_witness :
    DatabaseFile.create_session dbOpenEx ["autoflush"] [] =
      .ok ⟨dbOpenEx.engine, ["autoflush"], []⟩ ∧
    DatabaseFile.create_session dbOpenEx [] [] =
      .ok (SessionFactory.call ⟨some ⟨"sqlite:///test.db", []⟩, []⟩) :=
  ⟨(claim1_amended_session_creation dbOpenEx ["autoflush"] []).2.2.2.2.1
      (by decide) (Or.inl (by decide)),
   (claim1_amended_session_creation dbOpenEx [] []).2.2.1
      (by decide) rfl rfl ⟨some ⟨"sqlite:///test.db", []⟩, []⟩ (by decide)⟩

/-! ## Claim C6 -/

/-- C6 evaluation at the failing input: on an opened handle (`path` set,
`open()` run, both engines and both factories built), `close_async`
leaves the synchronous session-factory reference `_session_maker` set —
it nulls only `_async_session_maker` — while `close` on the same handle
nulls both.  The remaining clauses hold there: after `close_async` the
handle is closed (`is_open` false) and the call returns true. -/
theorem claim6_close_async_keeps_sync_factory :
    (DatabaseFile.close_async dbOpenEx).1.session_maker =
      some ⟨some ⟨"sqlite:///test.db", []⟩, []⟩ ∧
    (DatabaseFile.close dbOpenEx).1.session_maker = none ∧
    (DatabaseFile.close_async dbOpenEx).1.async_session_maker = none ∧
    (DatabaseFile.close_async dbOpenEx).1.engine = none ∧
    (DatabaseFile.close_async dbOpenEx).1.async_engine = none ∧
    DatabaseFile.is_open (DatabaseFile.close_async dbOpenEx).1 = false ∧
    (DatabaseFile.close_async dbOpenEx).2 = true ∧
    DatabaseFile.is_open dbOpenEx = true := by
  decide

/-! ## Claim C8 -/

/-- C8: the serialized state records an `is_open` flag and never contains
the live engine or session-factory references, and restoring (`setstate`
after `getstate`) re-opens the handle exactly when it was open at
serialization time, so the round-trip preserves the open/closed state.
The hypothesis states that an open handle has a path, which every
reachable open state satisfies (`create_engine` needs the path to build
the engines). -/
theorem claim8_pickle_roundtrip :
    ∀ db : DatabaseFile,
      (DatabaseFile.is_open db = true → db.path.isSome = true) →
      ((DatabaseFile.getstate db).lookup "_engine" = none ∧
       (DatabaseFile.getstate db).lookup "_async_engine" = none ∧
       (DatabaseFile.getstate db).lookup "_session_maker" = none ∧
       (DatabaseFile.getstate db).lookup "_async_session_maker" = none) ∧
      (DatabaseFile.getstate db).lookup "is_open" =
        some (.vBool (DatabaseFile.is_open db)) ∧
      DatabaseFile.is_open (DatabaseFile.setstate (DatabaseFile.getstate db)) =
        DatabaseFile.is_open db := by
  intro db hpath
  refine ⟨⟨rfl, rfl, rfl, rfl⟩, rfl, ?_⟩
  have hg : DatabaseFile.getstate db =
      [("_path", .vPath db.path), ("is_open", .vBool (DatabaseFile.is_open db))] := rfl
  rw [hg]
  unfold DatabaseFile.setstate
  cases hopen : DatabaseFile.is_open db with
  | false => simp [List.lookup, DatabaseFile.is_open]
  | true =>
      have hp := hpath hopen
      cases hpv : db.path with
      | none => rw [hpv] at hp; simp at hp
      | some p =>
          simp [hpv, List.lookup, DatabaseFile.open_file, DatabaseFile.create_engine,
            DatabaseFile.build_session_maker, DatabaseFile.build_async_session_maker,
            DatabaseFile.is_open]

/-- Witness for C8 at an opened handle. -/
theorem claim8_pickle_roundtrip_witness :
    (DatabaseFile.is_open dbOpenEx = true → dbOpenEx.path.isSome = true) ∧
    (((DatabaseFile.getstate dbOpenEx).lookup "_engine" = none ∧
      (DatabaseFile.getstate dbOpenEx).lookup "_async_engine" = none ∧
      (DatabaseFile.getstate dbOpenEx).lookup "_session_maker" = none ∧
      (DatabaseFile.getstate dbOpenEx).lookup "_async_session_maker" = none) ∧
     (DatabaseFile.getstate dbOpenEx).lookup "is_open" =
       some (.vBool (DatabaseFile.is_open dbOpenEx)) ∧
     DatabaseFile.is_open (DatabaseFile.setstate (DatabaseFile.getstate dbOpenEx)) =
       DatabaseFile.is_open dbOpenEx) :=
  ⟨by decide, claim8_pickle_roundtrip dbOpenEx (by decide)⟩

/-! ## Claim C10: preservation lemmas -/

lemma enginesPaired_fresh (p : Option String) :
    enginesPaired ⟨p, none, none, none, none⟩ := Iff.rfl

lemma create_engine_preserves (db : DatabaseFile) (kw : List (String × String)) :
    enginesPaired db → enginesPaired (db.create_engine kw) := by
  intro h
  unfold DatabaseFile.create_engine
  cases db.path with
  | none => exact h
  | some p => simp [enginesPaired]

lemma close_fst_paired (db : DatabaseFile) : enginesPaired (db.close).1 := by
  unfold DatabaseFile.close
  cases he : db.engine <;> cases ha : db.async_engine <;>
    simp [enginesPaired, he, ha]

lemma close_async_fst_paired (db : DatabaseFile) : enginesPaired (db.close_async).1 := by
  unfold DatabaseFile.close_async
  cases he : db.engine <;> cases ha : db.async_engine <;>
    simp [enginesPaired, he, ha]

lemma open_file_preserves (db : DatabaseFile) (kw : List (String × String)) :
    enginesPaired db → enginesPaired (db.open_file kw) := by
  intro h
  unfold DatabaseFile.open_file
  cases hp : db.path with
  | none => exact h
  | some p =>
      simp [DatabaseFile.build_session_maker, DatabaseFile.build_async_session_maker,
        DatabaseFile.create_engine, hp, enginesPaired]

lemma create_file_preserves (db : DatabaseFile) (parg : Option String)
    (kw : List (String × String)) :
    enginesPaired db → enginesPaired (db.create_file parg kw) := by
  intro h
  unfold DatabaseFile.create_file
  cases parg with
  | some p =>
      simp [DatabaseFile.create_engine, enginesPaired]
  | none =>
      cases he : db.engine with
      | some e =>
          have hne : db.async_engine ≠ none := by
            intro hn
            rw [enginesPaired, hn] at h
            rw [h.mpr rfl] at he
            exact Option.noConfusion he
          simp only [he, Option.isNone_some, Option.isSome_none, Bool.or_self]
          exact h
      | none =>
          cases hp : db.path with
          | none =>
              simp only [he, Option.isNone_none, Option.isSome_none, Bool.or_self, hp]
              exact h
          | some p =>
              simp [he, hp, DatabaseFile.create_engine, enginesPaired]

lemma applyOp_preserves (db : DatabaseFile) (op : FileOp) :
    enginesPaired db → enginesPaired (applyOp db op) := by
  intro h
  cases op with
  | createFileOp parg kw => exact create_file_preserves db parg kw h
  | openOp kw => exact open_file_preserves db kw h
  | closeOp => exact close_fst_paired db
  | closeAsyncOp => exact close_async_fst_paired db
  | createEngineOp kw => exact create_engine_preserves db kw h

lemma runOps_preserves (ops : List FileOp) :
    ∀ db : DatabaseFile, enginesPaired db → enginesPaired (runOps db ops) := by
  induction ops with
  | nil => intro db h; exact h
  | cons op rest ih =>
      intro db h
      exact ih (applyOp db op) (applyOp_preserves db op h)

lemma construct_paired (p : Option String) (open_ create : Bool)
    (kw : List (String × String)) :
    enginesPaired (DatabaseFile.construct p open_ create kw) := by
  unfold DatabaseFile.construct
  have h0 : ∀ q : Option String, enginesPaired
      (match q with
        | some x => { (⟨none, none, none, none, none⟩ : DatabaseFile) with path := some x }
        | none => (⟨none, none, none, none, none⟩ : DatabaseFile)) := by
    intro q
    cases q <;> exact Iff.rfl
  have h1 := h0 p
  cases create with
  | false =>
      cases open_ with
      | false => simpa using h1
      | true =>
          simp only [if_true, if_false, Bool.false_eq_true, ite_false, ite_true]
          exact open_file_preserves _ kw h1
  | true =>
      have h2 := close_fst_paired
        ((match p with
          | some x => { (⟨none, none, none, none, none⟩ : DatabaseFile) with path := some x }
          | none => (⟨none, none, none, none, none⟩ : DatabaseFile)).create_file none [])
      cases open_ with
      | false => simpa using h2
      | true =>
          simp only [if_true, if_false, Bool.false_eq_true, ite_false, ite_true]
          exact open_file_preserves _ kw h2

lemma paired_is_open (db : DatabaseFile) (h : enginesPaired db) :
    DatabaseFile.is_open db = db.engine.isSome := by
  unfold DatabaseFile.is_open
  unfold enginesPaired at h
  cases he : db.engine with
  | none => simp
  | some e =>
      cases ha : db.async_engine with
      | none =>
          rw [ha] at h
          rw [h.mpr rfl] at he
          exact Option.noConfusion he
      | some a => simp [ha]

/-! ## Claim C10 -/

/-- C10: for every handle and every sequence of the handle's lifecycle
operations (`construct`, then any sequence of `create_file`, `open`,
`close`, `close_async`, `create_engine`), the synchronous engine reference
is null if and only if the asynchronous engine reference is null — the two
engines are created and discarded as a pair — and therefore `is_open`
equals the synchronous engine alone being non-null. -/
theorem claim10_engines_paired_invariant :
    ∀ (p : Option String) (open_ create : Bool) (kw : List (String × String))
      (ops : List FileOp),
      enginesPaired (runOps (DatabaseFile.construct p open_ create kw) ops) ∧
      DatabaseFile.is_open (runOps (DatabaseFile.construct p open_ create kw) ops) =
        (runOps (DatabaseFile.construct p open_ create kw) ops).engine.isSome := by
  intro p open_ create kw ops
  have h := runOps_preserves ops _ (construct_paired p open_ create kw)
  exact ⟨h, paired_is_open _ h⟩

/-- Witness for C10: a freshly constructed-and-opened handle after an
asynchronous close. -/
theorem claim10_engines_paired_invariant_witness :
    enginesPaired (runOps (DatabaseFile.construct (some "test.db") true false [])
      [FileOp.closeAsyncOp]) ∧
    DatabaseFile.is_open (runOps (DatabaseFile.construct (some "test.db") true false [])
      [FileOp.closeAsyncOp]) =
      (runOps (DatabaseFile.construct (some "test.db") true false [])
        [FileOp.closeAsyncOp]).engine.isSome :=
  claim10_engines_paired_invariant (some "test.db") true false [] [FileOp.closeAsyncOp]
